import Mathlib

/-
Shallow embedding of the slapd entry-modification core:
  servers/slapd/back-bdb/modify.c  (bdb_modify_internal, bdb_modify)
  servers/slapd/modify.c           (do_modify helpers, add_lastmods)

Pure C helpers that live in other translation units of the repository
(acl_check_modlist, modify_add_values, entry_schema_check, the index
primitives, the transaction and cache primitives) are collaborators here:
they are fields of an environment record, so the theorems quantify over
their behaviour.  In-place mutation of the entry and of the modification
list is modelled by threading the mutated values through and returning
them; calls into collaborators and into the index store are recorded in an
event trace.
-/

namespace OpenLDAPModify

/-- LDAP result codes used on the modify paths.  The source manipulates
them as plain C ints; DB errors share the same int channel and are
negative. -/
def LDAP_SUCCESS : Int := 0

def LDAP_REFERRAL : Int := 10

def LDAP_NO_SUCH_ATTRIBUTE : Int := 16

def LDAP_CONSTRAINT_VIOLATION : Int := 19

def LDAP_TYPE_OR_VALUE_EXISTS : Int := 20

def LDAP_INVALID_SYNTAX : Int := 21

def LDAP_INSUFFICIENT_ACCESS : Int := 50

def LDAP_BUSY : Int := 51

def LDAP_OTHER : Int := 80

def LDAP_ASSERTION_FAILED : Int := 122

def LDAP_X_NO_OPERATION : Int := 16654

def SLAPD_ABANDON : Int := -1074

def DB_LOCK_DEADLOCK : Int := -30994

def DB_LOCK_NOTGRANTED : Int := -30993

def DB_NOTFOUND : Int := -30988

/-- Index bookkeeping bits stored in Attribute.a_flags
(SLAP_ATTR_IXDEL / SLAP_ATTR_IXADD of slap.h). -/
def SLAP_ATTR_IXDEL : Nat := 1

def SLAP_ATTR_IXADD : Nat := 2

/-- One attribute of an entry: descriptor (identified here by its name),
values, normalized values, and the transient flag word that carries the
index bookkeeping bits. -/
structure Attribute where
  a_desc : String
  a_vals : List String
  a_nvals : List String
  a_flags : Nat
deriving DecidableEq

/-- A directory entry: id, dn, normalized dn, attribute list and the
cached object-class flag word. -/
structure Entry where
  e_id : Nat
  e_name : String
  e_nname : String
  e_attrs : List Attribute
  e_ocflags : Nat
deriving DecidableEq

/-- Modification operation codes (LDAP_MOD_ADD .. SLAP_MOD_SOFTADD); the
source keeps them in an int, so an arbitrary unknown code is represented
by the last constructor and falls into the default switch arm. -/
inductive ModOp where
  | add
  | delete
  | replace
  | increment
  | softadd
  | other (code : Nat)
deriving DecidableEq

/-- One element of the Modifications list handed to the backend. -/
structure Modification where
  sm_op : ModOp
  sm_desc : String
  sm_values : List String
  sm_nvalues : List String
deriving DecidableEq

def structuralObjectClassDesc : String := "structuralObjectClass"

def objectClassDesc : String := "objectClass"

/-- Kind of an index store write (SLAP_INDEX_DELETE_OP / SLAP_INDEX_ADD_OP). -/
inductive IxKind where
  | deleteOp
  | addOp
deriving DecidableEq

/-- Events emitted by bdb_modify_internal: calls into the modify_*_values
collaborators (carrying the modification the collaborator is shown), the
single schema-check call, and writes against the index store. -/
inductive Ev where
  | callAdd (m : Modification)
  | callDelete (m : Modification)
  | callReplace (m : Modification)
  | callIncrement (m : Modification)
  | schemaCheck
  | ixWrite (k : IxKind) (d : String) (nvals : List String) (id : Nat)
deriving DecidableEq

/-- Collaborator environment of bdb_modify_internal.  Each field stands
for a function from another translation unit of the repository; the
modify_*_values collaborators consume the attribute list and return the
error code together with the possibly rewritten list. -/
structure SlapEnv where
  acl_check_modlist : Entry → List Modification → Bool
  permissiveModify : Bool
  manageDIT : Bool
  is_at_operational : String → Bool
  modify_add_values : List Attribute → Modification → Bool → Int × List Attribute
  modify_delete_values : List Attribute → Modification → Bool → Int × List Attribute
  modify_replace_values : List Attribute → Modification → Bool → Int × List Attribute
  modify_increment_values : List Attribute → Modification → Bool → Int × List Attribute
  entry_schema_check : List Attribute → List Attribute → Bool → Int
  index_is_indexed : String → Bool
  index_values : String → List String → Nat → IxKind → Int

/-- Modelled from the spec: value_match (servers/slapd/value.c is not part
of src) applies the equality matching rule of structuralObjectClass to one
value and the sentinel berval; per the spec, pass 1 fires the purge when
the value is not equal to the sentinel value "glue", so the match outcome
is modelled as the boolean value equality that the caller tests. -/
def value_match (v w : String) : Bool := v == w

/-- Pass 1 test on a single modification (lines 61-70 of
back-bdb/modify.c): an ADD or REPLACE of structuralObjectClass whose first
value does not match the sentinel "glue". -/
def glueTrigger (m : Modification) : Bool :=
  match m.sm_op with
  | ModOp.add =>
      (m.sm_desc == structuralObjectClassDesc) &&
        !(value_match (m.sm_values.headD "") "glue")
  | ModOp.replace =>
      (m.sm_desc == structuralObjectClassDesc) &&
        !(value_match (m.sm_values.headD "") "glue")
  | _ => false

/-- Pass 1 scan (lines 57-74): walk the modification list and stop at the
first modification that sets glue_attr_delete. -/
def glueDetect : List Modification → Bool
  | [] => false
  | m :: rest => if glueTrigger m then true else glueDetect rest

/-- attr_find: first attribute with the given descriptor. -/
def attr_find (l : List Attribute) (d : String) : Option Attribute :=
  l.find? (fun a => a.a_desc == d)

/-- In-place `ap->a_flags |= fl` on the first attribute found with the
given descriptor; identity when (as in the source, guarded by
`if ( ap )`) no such attribute exists. -/
def attr_flag_set (l : List Attribute) (d : String) (fl : Nat) : List Attribute :=
  match l with
  | [] => []
  | a :: rest =>
      if a.a_desc == d then { a with a_flags := a.a_flags ||| fl } :: rest
      else a :: attr_flag_set rest d fl

/-- The flag-clearing loop `for (ap = save_attrs; ap; ap = ap->a_next)
ap->a_flags = 0;`. -/
def clearFlags (l : List Attribute) : List Attribute :=
  l.map (fun a => { a with a_flags := 0 })

/-- Modelled from the spec: attrs_dup (servers/slapd/attr.c is not part of
src) deep-copies the attribute list; the transient index bookkeeping flags
of the fresh copy start out clear ("The post-image is created by
deep-copying the pre-image's attribute list"). -/
def attrs_dup (l : List Attribute) : List Attribute := clearFlags l

/-- Result of one arm of the per-modification switch: error code, the
attribute list after the collaborator call, the modification as left in
the caller's list (SOFT_ADD rewrites and restores sm_op around the call),
and the collaborator calls made. -/
structure StepOut where
  err : Int
  attrs : List Attribute
  m : Modification
  evs : List Ev

/-- The switch over mod->sm_op (lines 92-170 of back-bdb/modify.c).  A
DELETE under glue_attr_delete is treated as success without action;
SOFT_ADD temporarily rewrites sm_op to ADD around modify_add_values,
restores it, and swallows LDAP_TYPE_OR_VALUE_EXISTS; an unknown op yields
LDAP_OTHER. -/
def modStep (env : SlapEnv) (glue : Bool) (m : Modification)
    (attrs : List Attribute) : StepOut :=
  match m.sm_op with
  | ModOp.add =>
      let r := env.modify_add_values attrs m env.permissiveModify
      { err := r.1, attrs := r.2, m := m, evs := [Ev.callAdd m] }
  | ModOp.delete =>
      if glue then
        { err := LDAP_SUCCESS, attrs := attrs, m := m, evs := [] }
      else
        let r := env.modify_delete_values attrs m env.permissiveModify
        { err := r.1, attrs := r.2, m := m, evs := [Ev.callDelete m] }
  | ModOp.replace =>
      let r := env.modify_replace_values attrs m env.permissiveModify
      { err := r.1, attrs := r.2, m := m, evs := [Ev.callReplace m] }
  | ModOp.increment =>
      let r := env.modify_increment_values attrs m env.permissiveModify
      { err := r.1, attrs := r.2, m := m, evs := [Ev.callIncrement m] }
  | ModOp.softadd =>
      let m1 : Modification := { m with sm_op := ModOp.add }
      let r := env.modify_add_values attrs m1 env.permissiveModify
      let m2 : Modification := { m1 with sm_op := ModOp.softadd }
      let err := if r.1 = LDAP_TYPE_OR_VALUE_EXISTS then LDAP_SUCCESS else r.1
      { err := err, attrs := r.2, m := m2, evs := [Ev.callAdd m1] }
  | ModOp.other _ =>
      { err := LDAP_OTHER, attrs := attrs, m := m, evs := [] }

/-- State coming out of the pass 2 loop: error code, the working entry,
the (flag-mutated) saved pre-image list, the modification list as the
caller sees it afterwards, and the accumulated events. -/
structure LoopOut where
  err : Int
  e : Entry
  save : List Attribute
  modsOut : List Modification
  evs : List Ev

/-- Pass 2 (lines 89-196): apply each modification in order; on error
free the working list and put the saved pre-image back (the saved list
keeps whatever index flags earlier iterations set); on success reset
e_ocflags when objectClass (or glue purge) is involved and, when the
descriptor is indexed and the operation is not no-op, set SLAP_ATTR_IXDEL
on the saved pre-image attribute and SLAP_ATTR_IXADD on the working
attribute. -/
def applyLoop (env : SlapEnv) (noop glue : Bool) :
    List Modification → Entry → List Attribute → List Modification →
      List Ev → LoopOut
  | [], e, save, done, tr =>
      { err := LDAP_SUCCESS, e := e, save := save,
        modsOut := done.reverse, evs := tr }
  | m :: rest, e, save, done, tr =>
      let s := modStep env glue m e.e_attrs
      if s.err ≠ LDAP_SUCCESS then
        { err := s.err, e := { e with e_attrs := save }, save := save,
          modsOut := done.reverse ++ s.m :: rest, evs := tr ++ s.evs }
      else
        let of1 := if s.m.sm_desc == objectClassDesc then 0 else e.e_ocflags
        let of2 := if glue then 0 else of1
        let ixed := env.index_is_indexed s.m.sm_desc && !noop
        let save1 :=
          if ixed then attr_flag_set save s.m.sm_desc SLAP_ATTR_IXDEL else save
        let attrs2 :=
          if ixed then attr_flag_set s.attrs s.m.sm_desc SLAP_ATTR_IXADD
          else s.attrs
        applyLoop env noop glue rest
          { e with e_attrs := attrs2, e_ocflags := of2 } save1
          (s.m :: done) (tr ++ s.evs)

/-- Outcome of an index loop: result code, the traversed list as mutated
in place, and the index store writes issued. -/
structure IxOut where
  rc : Int
  attrs : List Attribute
  evs : List Ev

/-- The delete half of the index update (lines 222-237): for every saved
pre-image attribute flagged SLAP_ATTR_IXDEL issue a DELETE_OP over its
normalized values; stop at the first failure (flag still set on the
failing attribute), clear the flag after each success. -/
def ixDelLoop (env : SlapEnv) (id : Nat) : List Attribute → IxOut
  | [] => { rc := LDAP_SUCCESS, attrs := [], evs := [] }
  | a :: rest =>
      if a.a_flags &&& SLAP_ATTR_IXDEL ≠ 0 then
        let ev := Ev.ixWrite IxKind.deleteOp a.a_desc a.a_nvals id
        let rc := env.index_values a.a_desc a.a_nvals id IxKind.deleteOp
        if rc ≠ LDAP_SUCCESS then
          { rc := rc, attrs := a :: rest, evs := [ev] }
        else
          let r := ixDelLoop env id rest
          { rc := r.rc,
            attrs :=
              { a with a_flags := a.a_flags - (a.a_flags &&& SLAP_ATTR_IXDEL) }
                :: r.attrs,
            evs := ev :: r.evs }
      else
        let r := ixDelLoop env id rest
        { rc := r.rc, attrs := a :: r.attrs, evs := r.evs }

/-- The add half of the index update (lines 240-255): symmetric to the
delete loop, over the post-image attributes flagged SLAP_ATTR_IXADD. -/
def ixAddLoop (env : SlapEnv) (id : Nat) : List Attribute → IxOut
  | [] => { rc := LDAP_SUCCESS, attrs := [], evs := [] }
  | a :: rest =>
      if a.a_flags &&& SLAP_ATTR_IXADD ≠ 0 then
        let ev := Ev.ixWrite IxKind.addOp a.a_desc a.a_nvals id
        let rc := env.index_values a.a_desc a.a_nvals id IxKind.addOp
        if rc ≠ LDAP_SUCCESS then
          { rc := rc, attrs := a :: rest, evs := [ev] }
        else
          let r := ixAddLoop env id rest
          { rc := r.rc,
            attrs :=
              { a with a_flags := a.a_flags - (a.a_flags &&& SLAP_ATTR_IXADD) }
                :: r.attrs,
            evs := ev :: r.evs }
      else
        let r := ixAddLoop env id rest
        { rc := r.rc, attrs := a :: r.attrs, evs := r.evs }

/-- Result of bdb_modify_internal: return code, the entry as left behind
(on error its e_attrs is the restored pre-image list), the modification
list as the caller sees it afterwards, and the event trace. -/
structure MIResult where
  rc : Int
  e : Entry
  modlist : List Modification
  trace : List Ev

/-- Lines 198-257, after pass 2 succeeded: the single entry_schema_check
call (whose failure, or no-op, reverts e_attrs to the flag-cleared saved
list), the index delete loop, then the index add loop; either index
failure restores e_attrs to the saved list as currently mutated. -/
def miAfterLoop (env : SlapEnv) (noop : Bool) (lo : LoopOut) : MIResult :=
  let rc := env.entry_schema_check lo.e.e_attrs lo.save env.manageDIT
  let tr2 := lo.evs ++ [Ev.schemaCheck]
  if rc ≠ LDAP_SUCCESS ∨ noop then
    { rc := rc, e := { lo.e with e_attrs := clearFlags lo.save },
      modlist := lo.modsOut, trace := tr2 }
  else
    let dl := ixDelLoop env lo.e.e_id lo.save
    if dl.rc ≠ LDAP_SUCCESS then
      { rc := dl.rc, e := { lo.e with e_attrs := dl.attrs },
        modlist := lo.modsOut, trace := tr2 ++ dl.evs }
    else
      let al := ixAddLoop env lo.e.e_id lo.e.e_attrs
      if al.rc ≠ LDAP_SUCCESS then
        { rc := al.rc, e := { lo.e with e_attrs := dl.attrs },
          modlist := lo.modsOut, trace := tr2 ++ dl.evs ++ al.evs }
      else
        { rc := LDAP_SUCCESS, e := { lo.e with e_attrs := al.attrs },
          modlist := lo.modsOut, trace := tr2 ++ dl.evs ++ al.evs }

/-- Everything after the ACL check and the glue purge decision: pass 2
over the working copy, then, when no modification failed, the schema and
index phase. -/
def miApply (env : SlapEnv) (noop : Bool) (modlist : List Modification)
    (e : Entry) (save work : List Attribute) (glue : Bool) : MIResult :=
  let lo := applyLoop env noop glue modlist { e with e_attrs := work } save [] []
  if lo.err ≠ LDAP_SUCCESS then
    { rc := lo.err, e := lo.e, modlist := lo.modsOut, trace := lo.evs }
  else
    miAfterLoop env noop lo

/-- bdb_modify_internal (back-bdb/modify.c lines 30-258).  ACL check
first; then the pre-image list is saved and duplicated, pass 1 decides the
glue purge, which removes every non-operational attribute from the
working copy before any modification is applied. -/
def bdb_modify_internal (env : SlapEnv) (noop : Bool)
    (modlist : List Modification) (e : Entry) : MIResult :=
  if env.acl_check_modlist e modlist then
    let glue := glueDetect modlist
    let work :=
      if glue then
        (attrs_dup e.e_attrs).filter (fun a => env.is_at_operational a.a_desc)
      else attrs_dup e.e_attrs
    miApply env noop modlist e e.e_attrs work glue
  else
    { rc := LDAP_INSUFFICIENT_ACCESS, e := e, modlist := modlist, trace := [] }

/-! Frontend operational-attribute injector: add_lastmods of
servers/slapd/modify.c, over the old LDAPMod list representation. -/

/-- One LDAPMod of the frontend list (old API): operation code as a plain
int, attribute type name, values. -/
structure LDAPMod where
  mod_op : Nat
  mod_type : String
  mod_bvalues : List String
deriving DecidableEq

def LDAP_MOD_ADD_CODE : Nat := 0

def LDAP_MOD_DELETE_CODE : Nat := 1

def LDAP_MOD_REPLACE_CODE : Nat := 2

/-- Lowercasing map used to model strcasecmp equality. -/
def lowerStr (s : String) : String := String.mk (s.data.map Char.toLower)

/-- Case-insensitive string equality (strcasecmp(a, b) == 0). -/
def strcaseeq (a b : String) : Bool := lowerStr a == lowerStr b

/-- The four maintained operational attributes tested by the strip loop in
add_lastmods (lines 212-215 of servers/slapd/modify.c). -/
def isLastmodAttr (t : String) : Bool :=
  strcaseeq t "modifytimestamp" || strcaseeq t "modifiersname" ||
  strcaseeq t "createtimestamp" || strcaseeq t "creatorsname"

/-- The strip loop of add_lastmods (lines 211-230), including its
in-place unlink behaviour: after `*m = (*m)->mod_next` the for-loop
increment advances past the element that slid into *m, so that element is
never tested; an unlink at the very tail breaks out of the loop. -/
def strip_lastmods : List LDAPMod → List LDAPMod
  | [] => []
  | a :: rest =>
      if isLastmodAttr a.mod_type then
        match rest with
        | [] => []
        | b :: rest2 => b :: strip_lastmods rest2
      else a :: strip_lastmods rest

/-- Broken-down UTC time as produced by gmtime; the fields are already
normalized to human form (full year, month 1-12). -/
structure Tm where
  tm_year : Nat
  tm_mon : Nat
  tm_mday : Nat
  tm_hour : Nat
  tm_min : Nat
  tm_sec : Nat
deriving DecidableEq

/-- Zero-padded decimal rendering of a natural number to a field width. -/
def natPad (w n : Nat) : String :=
  let s := Nat.repr n
  String.mk (List.replicate (w - s.length) '0') ++ s

/-- Modelled from the spec: gmtime plus strftime with the source's format
string "%Y%m%d%H%M%SZ" (libc collaborators), rendering a broken-down UTC
time as YYYYMMDDhhmmssZ. -/
def strftime_YmdHMSZ (t : Tm) : String :=
  natPad 4 t.tm_year ++ natPad 2 t.tm_mon ++ natPad 2 t.tm_mday ++
  natPad 2 t.tm_hour ++ natPad 2 t.tm_min ++ natPad 2 t.tm_sec ++ "Z"

/-- Events of the injector: the lock and unlock of currenttime_mutex and
the read of the currenttime global between them. -/
inductive TEv where
  | mutexLock
  | readCurrenttime
  | mutexUnlock
deriving DecidableEq

/-- The slice of the frontend Operation that add_lastmods reads: the
authenticated dn (o_dn), a nullable C string. -/
structure FrontOp where
  o_dn : Option String
deriving DecidableEq

/-- Result of add_lastmods: the rewritten list and the mutex event trace. -/
structure LastmodsOut where
  mods : List LDAPMod
  evs : List TEv
deriving DecidableEq

/-- add_lastmods (servers/slapd/modify.c lines 195-266): strip the
maintained attributes from the user list, then push a REPLACE of
modifiersname (authenticated DN, or "NULLDN" when o_dn is null or empty)
and a REPLACE of modifytimestamp (currenttime read under
currenttime_mutex, rendered by strftime) onto the front of the list. -/
def add_lastmods (op : FrontOp) (currenttime : Tm)
    (mods : List LDAPMod) : LastmodsOut :=
  let stripped := strip_lastmods mods
  let dnval :=
    match op.o_dn with
    | none => "NULLDN"
    | some d => if d = "" then "NULLDN" else d
  let m1 : LDAPMod :=
    { mod_op := LDAP_MOD_REPLACE_CODE, mod_type := "modifiersname",
      mod_bvalues := [dnval] }
  let mods1 := m1 :: stripped
  let buf := strftime_YmdHMSZ currenttime
  let m2 : LDAPMod :=
    { mod_op := LDAP_MOD_REPLACE_CODE, mod_type := "modifytimestamp",
      mod_bvalues := [buf] }
  { mods := m2 :: mods1,
    evs := [TEv.mutexLock, TEv.readCurrenttime, TEv.mutexUnlock] }

/-! Transaction coordinator: bdb_modify of back-bdb/modify.c. -/

/-- Modelled from the spec: is_entry_glue (a slap.h collaborator macro not
part of src) tests whether the entry's object classes include the glue
placeholder class ("Glue entry: a placeholder entry created to support a
subordinate"). -/
def is_entry_glue (e : Entry) : Bool :=
  match attr_find e.e_attrs objectClassDesc with
  | some a => a.a_vals.contains "glue"
  | none => false

/-- Modelled from the spec: is_entry_referral (a slap.h collaborator macro
not part of src) tests whether the entry is a referral object ("Referral:
a pointer to another server that holds the target entry"). -/
def is_entry_referral (e : Entry) : Bool :=
  match attr_find e.e_attrs objectClassDesc with
  | some a => a.a_vals.contains "referral"
  | none => false

/-- Outcome of bdb_dn2entry: the entry, a not-found with the closest
ancestor the cache produced (ei->bei_e, possibly none), or one of the DB
error kinds the switch distinguishes. -/
inductive DnRes where
  | found (e : Entry)
  | notfound (anc : Option Entry)
  | deadlock
  | notgranted
  | busy
  | otherErr
deriving DecidableEq

/-- Coordinator-level events: transaction begin/abort/commit for the
outer and inner transaction, the invocation of the applier on its
pre-image, applier-internal events, the entry store update, the cache
update or the free of a synthesized entry, cache handle returns, the
reply, the checkpoint, and a retry transition. -/
inductive CEv where
  | outerBegin
  | outerAbort
  | outerCommit
  | innerBegin
  | innerCommit
  | applyOn (e : Entry)
  | mi (ev : Ev)
  | storeUpdate (e : Entry)
  | cacheModify (attrs : List Attribute)
  | entryFree (e : Entry)
  | cacheReturnW
  | cacheReturnR
  | sendResult (rc : Int)
  | checkpointEv
  | retryEv
deriving DecidableEq

/-- Collaborator environment of bdb_modify.  Result fields model what the
store primitives return on this attempt (the model keeps them the same
across retries). -/
structure BdbEnv where
  slap : SlapEnv
  txn_begin_res : Int
  txn_begin2_res : Int
  dn2entry : DnRes
  test_filter : Entry → Bool
  read_controls_ok : Bool
  boi_err : Int
  id2entry_update_res : Int
  txn_commit2_res : Int
  txn_abort_res : Int
  txn_commit_res : Int
  cache_modify_res : Int
  txn_cp : Bool

/-- The slice of the Operation that bdb_modify reads. -/
structure OpParams where
  o_noop : Bool
  o_abandon : Bool
  o_preread : Bool
  o_postread : Bool
  manageDSAit : Bool
  get_assert : Bool
  req_dn : String
  req_ndn : String
  modlist : List Modification
deriving DecidableEq

/-- What one modify call leaves behind: the result code of the reply, the
diagnostic text, and the event trace. -/
structure ModifyResult where
  sr_err : Int
  sr_text : Option String
  trace : List CEv
deriving DecidableEq

/-- One transaction attempt either produces a final result or asks for a
deadlock retry (the goto retry of the source). -/
inductive AttemptOut where
  | retry (tr : List CEv)
  | final (r : ModifyResult)

/-- The shared return_results/done tail (lines 577-609): send the reply,
checkpoint after a successful commit when configured, abort the outer
transaction when it is still open, hand the entry back to the cache when
one is held. -/
def finishResults (txn_cp ltid_active e_held : Bool) (err : Int)
    (txt : Option String) (tr : List CEv) : ModifyResult :=
  let tr1 := tr ++ [CEv.sendResult err]
  let tr2 := if err = LDAP_SUCCESS ∧ txn_cp then tr1 ++ [CEv.checkpointEv] else tr1
  let tr3 := if ltid_active then tr2 ++ [CEv.outerAbort] else tr2
  let tr4 := if e_held then tr3 ++ [CEv.cacheReturnW] else tr3
  { sr_err := err, sr_text := txt, trace := tr4 }

/-- The synthesized transient root entry of the fake-root path (lines
360-372): empty name, objectClass glue, structuralObjectClass glue. -/
def fakerootEntry : Entry :=
  { e_id := 0, e_name := "", e_nname := "",
    e_attrs :=
      [ { a_desc := objectClassDesc, a_vals := ["glue"],
          a_nvals := ["glue"], a_flags := 0 },
        { a_desc := structuralObjectClassDesc, a_vals := ["glue"],
          a_nvals := ["glue"], a_flags := 0 } ],
    e_ocflags := 0 }

/-- The referral tail for the not-found case (lines 390-417): when an
ancestor entry is at hand it is returned to the cache first; the reply is
LDAP_REFERRAL and the open outer transaction is aborted at done. -/
def bdb_modify_notfound_referral (anc : Option Entry)
    (tr : List CEv) : AttemptOut :=
  match anc with
  | some _ =>
      AttemptOut.final
        { sr_err := LDAP_REFERRAL, sr_text := none,
          trace := tr ++ [CEv.cacheReturnR, CEv.sendResult LDAP_REFERRAL,
                          CEv.outerAbort] }
  | none =>
      AttemptOut.final
        { sr_err := LDAP_REFERRAL, sr_text := none,
          trace := tr ++ [CEv.sendResult LDAP_REFERRAL, CEv.outerAbort] }

/-- Success tail of the non-no-op path (lines 536-566): free the
synthesized entry on the fake-root path, otherwise push the new attribute
list into the cache (a cache deadlock retries); then commit the outer
transaction. -/
def bdb_modify_commit_phase (env : BdbEnv) (tr : List CEv)
    (e : Entry) (fakeroot : Bool) (mi : MIResult) : AttemptOut :=
  let tr1 :=
    if fakeroot then tr ++ [CEv.entryFree e]
    else tr ++ [CEv.cacheModify mi.e.e_attrs]
  if !fakeroot ∧ (env.cache_modify_res = DB_LOCK_DEADLOCK ∨
      env.cache_modify_res = DB_LOCK_NOTGRANTED) then
    AttemptOut.retry tr1
  else
    let tr2 := tr1 ++ [CEv.outerCommit]
    if env.txn_commit_res ≠ 0 then
      AttemptOut.final
        (finishResults env.txn_cp false true LDAP_OTHER
          (some "commit failed") tr2)
    else
      AttemptOut.final
        (finishResults env.txn_cp false true LDAP_SUCCESS none tr2)

/-- From the inner transaction onward (lines 459-535): run the applier on
a working copy of the entry, update the entry store, commit the inner
transaction, take the optional post-read, then either abort the outer
transaction with the distinguished no-operation code or continue to the
commit phase. -/
def bdb_modify_apply_phase (env : BdbEnv) (op : OpParams) (tr : List CEv)
    (e : Entry) (fakeroot : Bool) : AttemptOut :=
  let mi := bdb_modify_internal env.slap op.o_noop op.modlist e
  let tr1 := tr ++ [CEv.applyOn e] ++ mi.trace.map CEv.mi
  if mi.rc ≠ LDAP_SUCCESS then
    let rc :=
      if mi.rc = LDAP_INSUFFICIENT_ACCESS ∧ env.boi_err ≠ 0 then env.boi_err
      else mi.rc
    if rc = DB_LOCK_DEADLOCK ∨ rc = DB_LOCK_NOTGRANTED then
      AttemptOut.retry tr1
    else
      AttemptOut.final (finishResults env.txn_cp true true rc none tr1)
  else
    let tr2 := tr1 ++ [CEv.storeUpdate mi.e]
    if env.id2entry_update_res = DB_LOCK_DEADLOCK ∨
        env.id2entry_update_res = DB_LOCK_NOTGRANTED then
      AttemptOut.retry tr2
    else if env.id2entry_update_res ≠ 0 then
      AttemptOut.final
        (finishResults env.txn_cp true true env.id2entry_update_res
          (some "entry update failed") tr2)
    else if env.txn_commit2_res ≠ 0 then
      AttemptOut.final
        (finishResults env.txn_cp true true LDAP_OTHER
          (some "txn_commit(2) failed") tr2)
    else
      let tr3 := tr2 ++ [CEv.innerCommit]
      if op.o_postread ∧ !env.read_controls_ok then
        AttemptOut.final (finishResults env.txn_cp true true LDAP_OTHER none tr3)
      else if op.o_noop then
        let tr4 := tr3 ++ [CEv.outerAbort]
        if env.txn_abort_res ≠ 0 then
          AttemptOut.final
            (finishResults env.txn_cp false true LDAP_OTHER
              (some "commit failed") tr4)
        else
          AttemptOut.final
            (finishResults env.txn_cp false true LDAP_X_NO_OPERATION none tr4)
      else
        bdb_modify_commit_phase env tr3 e fakeroot mi

/-- The checks between entry resolution and the inner transaction (lines
388-469): the glue-entry referral, the plain referral, the assertion
control, the optional pre-read, then the inner transaction begin. -/
def bdb_modify_checks (env : BdbEnv) (op : OpParams) (tr : List CEv)
    (e : Entry) (fakeroot : Bool) : AttemptOut :=
  if !op.manageDSAit ∧ is_entry_glue e then
    AttemptOut.final
      { sr_err := LDAP_REFERRAL, sr_text := none,
        trace := tr ++ [CEv.cacheReturnR, CEv.sendResult LDAP_REFERRAL,
                        CEv.outerAbort] }
  else if !op.manageDSAit ∧ is_entry_referral e then
    AttemptOut.final
      { sr_err := LDAP_REFERRAL, sr_text := none,
        trace := tr ++ [CEv.sendResult LDAP_REFERRAL, CEv.outerAbort] }
  else if op.get_assert ∧ !env.test_filter e then
    AttemptOut.final
      (finishResults env.txn_cp true true LDAP_ASSERTION_FAILED none tr)
  else if op.o_preread ∧ !env.read_controls_ok then
    AttemptOut.final (finishResults env.txn_cp true true LDAP_OTHER none tr)
  else if env.txn_begin2_res ≠ 0 then
    AttemptOut.final
      (finishResults env.txn_cp true true LDAP_OTHER
        (some "internal error") tr)
  else
    bdb_modify_apply_phase env op (tr ++ [CEv.innerBegin]) e fakeroot

/-- One transaction attempt of bdb_modify (lines 325-575): outer
transaction begin, entry resolution with the fake-root synthesis for the
empty DN, then the check and apply phases. -/
def bdb_modify_attempt (env : BdbEnv) (op : OpParams) : AttemptOut :=
  if env.txn_begin_res ≠ 0 then
    AttemptOut.final
      (finishResults env.txn_cp false false LDAP_OTHER
        (some "internal error") [])
  else
    let tr := [CEv.outerBegin]
    match env.dn2entry with
    | DnRes.deadlock => AttemptOut.retry tr
    | DnRes.notgranted => AttemptOut.retry tr
    | DnRes.busy =>
        AttemptOut.final
          (finishResults env.txn_cp true false LDAP_BUSY
            (some "ldap server busy") tr)
    | DnRes.otherErr =>
        AttemptOut.final
          (finishResults env.txn_cp true false LDAP_OTHER
            (some "internal error") tr)
    | DnRes.notfound anc =>
        if op.req_ndn = "" then bdb_modify_checks env op tr fakerootEntry true
        else bdb_modify_notfound_referral anc tr
    | DnRes.found e => bdb_modify_checks env op tr e false

/-- The retry loop around the attempts (the goto retry of the source,
lines 295-323).  The source loop is unbounded; the model bounds it by a
retry budget and reports the pending deadlock when the budget is spent.
On retry the outer transaction is aborted and the abandon flag is
polled. -/
def bdb_modify_rec (env : BdbEnv) (op : OpParams) :
    Nat → List CEv → ModifyResult
  | fuel, tr =>
      match bdb_modify_attempt env op with
      | AttemptOut.final r => { r with trace := tr ++ r.trace }
      | AttemptOut.retry atr =>
          let tr1 := tr ++ atr ++ [CEv.retryEv, CEv.outerAbort]
          if env.txn_abort_res ≠ 0 then
            { sr_err := LDAP_OTHER, sr_text := some "internal error",
              trace := tr1 }
          else if op.o_abandon then
            { sr_err := SLAPD_ABANDON, sr_text := none, trace := tr1 }
          else
            match fuel with
            | 0 =>
                { sr_err := DB_LOCK_DEADLOCK,
                  sr_text := some "retry budget spent", trace := tr1 }
            | Nat.succ n => bdb_modify_rec env op n tr1

/-- bdb_modify: run attempts until one is final or the retry budget is
spent. -/
def bdb_modify (env : BdbEnv) (op : OpParams) (fuel : Nat) : ModifyResult :=
  bdb_modify_rec env op fuel []

/-! Concrete collaborator instances and fixtures used to evaluate the
embedding on closed inputs. -/

/-- A benign collaborator environment: access granted, every collaborator
succeeds and leaves the attribute list alone, nothing is indexed. -/
def slapEnv0 : SlapEnv :=
  { acl_check_modlist := fun _ _ => true
    permissiveModify := false
    manageDIT := false
    is_at_operational := fun _ => false
    modify_add_values := fun attrs _ _ => (LDAP_SUCCESS, attrs)
    modify_delete_values := fun attrs _ _ => (LDAP_SUCCESS, attrs)
    modify_replace_values := fun attrs _ _ => (LDAP_SUCCESS, attrs)
    modify_increment_values := fun attrs _ _ => (LDAP_SUCCESS, attrs)
    entry_schema_check := fun _ _ _ => LDAP_SUCCESS
    index_is_indexed := fun _ => false
    index_values := fun _ _ _ _ => LDAP_SUCCESS }

/-- Like slapEnv0 but attribute "a" is indexed. -/
def slapEnvIx : SlapEnv := { slapEnv0 with index_is_indexed := fun d => d == "a" }

/-- Like slapEnv0 but access is denied. -/
def slapEnvAclFalse : SlapEnv :=
  { slapEnv0 with acl_check_modlist := fun _ _ => false }

/-- An entry holding one attribute "a" with value "v". -/
def entryA : Entry :=
  { e_id := 7, e_name := "cn=a,dc=x", e_nname := "cn=a,dc=x",
    e_attrs :=
      [{ a_desc := "a", a_vals := ["v"], a_nvals := ["v"], a_flags := 0 }],
    e_ocflags := 0 }

/-- An ordinary entry whose object class is neither glue nor referral. -/
def entryTop : Entry :=
  { e_id := 1, e_name := "cn=a", e_nname := "cn=a",
    e_attrs :=
      [{ a_desc := objectClassDesc, a_vals := ["organization"],
         a_nvals := ["organization"], a_flags := 0 }],
    e_ocflags := 0 }

def modAddA : Modification :=
  { sm_op := ModOp.add, sm_desc := "a", sm_values := ["w"], sm_nvalues := ["w"] }

def modBadOp : Modification :=
  { sm_op := ModOp.other 99, sm_desc := "x", sm_values := [], sm_nvalues := [] }

def modSoftA : Modification :=
  { sm_op := ModOp.softadd, sm_desc := "a", sm_values := ["w"],
    sm_nvalues := ["w"] }

def modGlueRepl : Modification :=
  { sm_op := ModOp.replace, sm_desc := structuralObjectClassDesc,
    sm_values := ["organization"], sm_nvalues := ["organization"] }

/-- A benign coordinator environment over slapEnv0, resolving to
entryTop. -/
def bdbEnv0 : BdbEnv :=
  { slap := slapEnv0, txn_begin_res := 0, txn_begin2_res := 0,
    dn2entry := DnRes.found entryTop, test_filter := fun _ => true,
    read_controls_ok := true, boi_err := 0, id2entry_update_res := 0,
    txn_commit2_res := 0, txn_abort_res := 0, txn_commit_res := 0,
    cache_modify_res := 0, txn_cp := false }

/-- The coordinator environment with an unresolvable DN. -/
def bdbEnvNF : BdbEnv := { bdbEnv0 with dn2entry := DnRes.notfound none }

/-- A no-op modify request for entryTop with an empty modification
list. -/
def opNoop : OpParams :=
  { o_noop := true, o_abandon := false, o_preread := false,
    o_postread := false, manageDSAit := false, get_assert := false,
    req_dn := "cn=a", req_ndn := "cn=a", modlist := [] }

/-- A modify of the empty (root) DN without the manageDSAit control. -/
def opFakeroot : OpParams :=
  { o_noop := false, o_abandon := false, o_preread := false,
    o_postread := false, manageDSAit := false, get_assert := false,
    req_dn := "", req_ndn := "", modlist := [] }

/-- The same request with the manageDSAit control set. -/
def opFakerootManage : OpParams := { opFakeroot with manageDSAit := true }

/-- The maintained-attribute modifications a client might send, used as
inputs of the injector. -/
def userTsMod : LDAPMod :=
  { mod_op := LDAP_MOD_REPLACE_CODE, mod_type := "modifytimestamp",
    mod_bvalues := ["20200101000000Z"] }

def userMnMod : LDAPMod :=
  { mod_op := LDAP_MOD_REPLACE_CODE, mod_type := "modifiersname",
    mod_bvalues := ["cn=evil"] }

/-! Predicates over traces used by the theorems. -/

/-- Events that pass 2 may emit: collaborator calls, where a call into
modify_add_values always shows the collaborator an ADD opcode. -/
def applyEv : Ev → Prop
  | Ev.callAdd m => m.sm_op = ModOp.add
  | Ev.callDelete _ => True
  | Ev.callReplace _ => True
  | Ev.callIncrement _ => True
  | Ev.schemaCheck => False
  | Ev.ixWrite _ _ _ _ => False

/-- Index store writes. -/
def isIxEv : Ev → Bool
  | Ev.ixWrite _ _ _ _ => true
  | _ => false

/-- Index store deletes. -/
def isIxDelEv : Ev → Bool
  | Ev.ixWrite IxKind.deleteOp _ _ _ => true
  | _ => false

/-- Index store adds. -/
def isIxAddEv : Ev → Bool
  | Ev.ixWrite IxKind.addOp _ _ _ => true
  | _ => false

/-! Helper lemmas about the applier pieces. -/

theorem clearFlags_idem (l : List Attribute) :
    clearFlags (clearFlags l) = clearFlags l := by
  induction l with
  | nil => rfl
  | cons a l ih => simpa [clearFlags] using ih

theorem clearFlags_attr_flag_set (l : List Attribute) (d : String) (fl : Nat) :
    clearFlags (attr_flag_set l d fl) = clearFlags l := by
  induction l with
  | nil => rfl
  | cons a l ih =>
      by_cases h : a.a_desc == d <;> simp [attr_flag_set, h, clearFlags] <;>
        simpa [clearFlags] using ih

theorem modStep_m (env : SlapEnv) (glue : Bool) (m : Modification)
    (attrs : List Attribute) : (modStep env glue m attrs).m = m := by
  cases m with
  | mk op d v nv =>
      cases op <;> simp [modStep]
      split <;> rfl

theorem modStep_evs (env : SlapEnv) (glue : Bool) (m : Modification)
    (attrs : List Attribute) :
    ∀ ev ∈ (modStep env glue m attrs).evs, applyEv ev := by
  cases m with
  | mk op d v nv =>
      cases op <;> simp [modStep, applyEv]
      split <;> simp [applyEv]

theorem applyLoop_modsOut (env : SlapEnv) (noop glue : Bool) :
    ∀ (mods : List Modification) (e : Entry) (save : List Attribute)
      (done : List Modification) (tr : List Ev),
      (applyLoop env noop glue mods e save done tr).modsOut =
        done.reverse ++ mods := by
  intro mods
  induction mods with
  | nil => intro e save done tr; simp [applyLoop]
  | cons m rest ih =>
      intro e save done tr
      by_cases hs : (modStep env glue m e.e_attrs).err = LDAP_SUCCESS <;>
        simp [applyLoop, hs, ih, modStep_m]

theorem applyLoop_evs (env : SlapEnv) (noop glue : Bool) :
    ∀ (mods : List Modification) (e : Entry) (save : List Attribute)
      (done : List Modification) (tr : List Ev),
      (∀ ev ∈ tr, applyEv ev) →
      ∀ ev ∈ (applyLoop env noop glue mods e save done tr).evs, applyEv ev := by
  intro mods
  induction mods with
  | nil => intro e save done tr htr; simpa [applyLoop] using htr
  | cons m rest ih =>
      intro e save done tr htr
      have hstep := modStep_evs env glue m e.e_attrs
      have hext : ∀ ev ∈ tr ++ (modStep env glue m e.e_attrs).evs, applyEv ev := by
        intro ev hev
        rcases List.mem_append.mp hev with h | h
        · exact htr ev h
        · exact hstep ev h
      by_cases hs : (modStep env glue m e.e_attrs).err = LDAP_SUCCESS
      · simpa [applyLoop, hs] using ih _ _ _ _ hext
      · simpa [applyLoop, hs] using hext

theorem applyLoop_save_noop (env : SlapEnv) (glue : Bool) :
    ∀ (mods : List Modification) (e : Entry) (save : List Attribute)
      (done : List Modification) (tr : List Ev),
      (applyLoop env true glue mods e save done tr).save = save := by
  intro mods
  induction mods with
  | nil => intro e save done tr; simp [applyLoop]
  | cons m rest ih =>
      intro e save done tr
      by_cases hs : (modStep env glue m e.e_attrs).err = LDAP_SUCCESS <;>
        simp [applyLoop, hs, ih]

theorem applyLoop_save_clear (env : SlapEnv) (noop glue : Bool) :
    ∀ (mods : List Modification) (e : Entry) (save : List Attribute)
      (done : List Modification) (tr : List Ev),
      clearFlags (applyLoop env noop glue mods e save done tr).save =
        clearFlags save := by
  intro mods
  induction mods with
  | nil => intro e save done tr; simp [applyLoop]
  | cons m rest ih =>
      intro e save done tr
      by_cases hs : (modStep env glue m e.e_attrs).err = LDAP_SUCCESS
      · by_cases hx :
          env.index_is_indexed (modStep env glue m e.e_attrs).m.sm_desc && !noop <;>
          simp [applyLoop, hs, hx, ih, clearFlags_attr_flag_set]
      · simp [applyLoop, hs]

theorem applyLoop_err_attrs (env : SlapEnv) (noop glue : Bool) :
    ∀ (mods : List Modification) (e : Entry) (save : List Attribute)
      (done : List Modification) (tr : List Ev),
      (applyLoop env noop glue mods e save done tr).err ≠ LDAP_SUCCESS →
      (applyLoop env noop glue mods e save done tr).e.e_attrs =
        (applyLoop env noop glue mods e save done tr).save := by
  intro mods
  induction mods with
  | nil => intro e save done tr h; simp [applyLoop] at h
  | cons m rest ih =>
      intro e save done tr h
      by_cases hs : (modStep env glue m e.e_attrs).err = LDAP_SUCCESS
      · simp only [applyLoop, hs] at h ⊢
        exact ih _ _ _ _ h
      · simp [applyLoop, hs]

theorem ixDelLoop_clear (env : SlapEnv) (id : Nat) :
    ∀ l : List Attribute,
      clearFlags (ixDelLoop env id l).attrs = clearFlags l := by
  intro l
  induction l with
  | nil => rfl
  | cons a rest ih =>
      by_cases hf : a.a_flags &&& SLAP_ATTR_IXDEL ≠ 0
      · by_cases hr : env.index_values a.a_desc a.a_nvals id IxKind.deleteOp =
            LDAP_SUCCESS <;>
          simp [ixDelLoop, hf, hr, clearFlags, ih] <;>
          simpa [clearFlags] using ih
      · simp only [ixDelLoop, hf, if_false, ite_false]
        simpa [clearFlags, ixDelLoop, hf] using ih

theorem ixAddLoop_clear (env : SlapEnv) (id : Nat) :
    ∀ l : List Attribute,
      clearFlags (ixAddLoop env id l).attrs = clearFlags l := by
  intro l
  induction l with
  | nil => rfl
  | cons a rest ih =>
      by_cases hf : a.a_flags &&& SLAP_ATTR_IXADD ≠ 0
      · by_cases hr : env.index_values a.a_desc a.a_nvals id IxKind.addOp =
            LDAP_SUCCESS <;>
          simp [ixAddLoop, hf, hr, clearFlags, ih] <;>
          simpa [clearFlags] using ih
      · simp only [ixAddLoop, hf, if_false, ite_false]
        simpa [clearFlags, ixAddLoop, hf] using ih

theorem ixDelLoop_evs (env : SlapEnv) (id : Nat) :
    ∀ l : List Attribute, ∀ ev ∈ (ixDelLoop env id l).evs,
      ∃ d v i, ev = Ev.ixWrite IxKind.deleteOp d v i := by
  intro l
  induction l with
  | nil => intro ev h; simp [ixDelLoop] at h
  | cons a rest ih =>
      intro ev h
      by_cases hf : a.a_flags &&& SLAP_ATTR_IXDEL ≠ 0
      · by_cases hr : env.index_values a.a_desc a.a_nvals id IxKind.deleteOp =
            LDAP_SUCCESS
        · simp [ixDelLoop, hf, hr] at h
          rcases h with h | h
          · exact ⟨a.a_desc, a.a_nvals, id, by simp [h]⟩
          · exact ih ev h
        · simp [ixDelLoop, hf, hr] at h
          exact ⟨a.a_desc, a.a_nvals, id, by simp [h]⟩
      · simp [ixDelLoop, hf] at h
        exact ih ev h

theorem ixAddLoop_evs (env : SlapEnv) (id : Nat) :
    ∀ l : List Attribute, ∀ ev ∈ (ixAddLoop env id l).evs,
      ∃ d v i, ev = Ev.ixWrite IxKind.addOp d v i := by
  intro l
  induction l with
  | nil => intro ev h; simp [ixAddLoop] at h
  | cons a rest ih =>
      intro ev h
      by_cases hf : a.a_flags &&& SLAP_ATTR_IXADD ≠ 0
      · by_cases hr : env.index_values a.a_desc a.a_nvals id IxKind.addOp =
            LDAP_SUCCESS
        · simp [ixAddLoop, hf, hr] at h
          rcases h with h | h
          · exact ⟨a.a_desc, a.a_nvals, id, by simp [h]⟩
          · exact ih ev h
        · simp [ixAddLoop, hf, hr] at h
          exact ⟨a.a_desc, a.a_nvals, id, by simp [h]⟩
      · simp [ixAddLoop, hf] at h
        exact ih ev h

theorem filters_of_applyEv (l : List Ev) (h : ∀ ev ∈ l, applyEv ev) :
    l.filter isIxEv = [] ∧ l.filter isIxDelEv = [] ∧
      l.filter isIxAddEv = [] := by
  refine ⟨List.filter_eq_nil_iff.mpr ?_, List.filter_eq_nil_iff.mpr ?_,
    List.filter_eq_nil_iff.mpr ?_⟩ <;>
    · intro ev hev
      have := h ev hev
      cases ev <;> simp_all [applyEv, isIxEv, isIxDelEv, isIxAddEv]

theorem filters_of_del (l : List Ev)
    (h : ∀ ev ∈ l, ∃ d v i, ev = Ev.ixWrite IxKind.deleteOp d v i) :
    l.filter isIxEv = l ∧ l.filter isIxDelEv = l ∧
      l.filter isIxAddEv = [] := by
  refine ⟨List.filter_eq_self.mpr ?_, List.filter_eq_self.mpr ?_,
    List.filter_eq_nil_iff.mpr ?_⟩ <;>
    · intro ev hev
      obtain ⟨d, v, i, rfl⟩ := h ev hev
      simp [isIxEv, isIxDelEv, isIxAddEv]

theorem filters_of_add (l : List Ev)
    (h : ∀ ev ∈ l, ∃ d v i, ev = Ev.ixWrite IxKind.addOp d v i) :
    l.filter isIxEv = l ∧ l.filter isIxDelEv = [] ∧
      l.filter isIxAddEv = l := by
  refine ⟨List.filter_eq_self.mpr ?_, List.filter_eq_nil_iff.mpr ?_,
    List.filter_eq_self.mpr ?_⟩ <;>
    · intro ev hev
      obtain ⟨d, v, i, rfl⟩ := h ev hev
      simp [isIxEv, isIxDelEv, isIxAddEv]

theorem miAfterLoop_err_attrs (env : SlapEnv) (noop : Bool) (lo : LoopOut)
    (h : (miAfterLoop env noop lo).rc ≠ LDAP_SUCCESS) :
    clearFlags (miAfterLoop env noop lo).e.e_attrs = clearFlags lo.save := by
  by_cases h1 :
      env.entry_schema_check lo.e.e_attrs lo.save env.manageDIT ≠ LDAP_SUCCESS ∨
        noop = true
  · simp [miAfterLoop, h1, clearFlags_idem]
  · by_cases h2 : (ixDelLoop env lo.e.e_id lo.save).rc = LDAP_SUCCESS
    · by_cases h3 :
          (ixAddLoop env lo.e.e_id lo.e.e_attrs).rc = LDAP_SUCCESS
      · exact absurd (by simp [miAfterLoop, h1, h2, h3]) h
      · simp [miAfterLoop, h1, h2, h3, ixDelLoop_clear]
    · simp [miAfterLoop, h1, h2, ixDelLoop_clear]

theorem miAfterLoop_modlist (env : SlapEnv) (noop : Bool) (lo : LoopOut) :
    (miAfterLoop env noop lo).modlist = lo.modsOut := by
  by_cases h1 :
      env.entry_schema_check lo.e.e_attrs lo.save env.manageDIT ≠ LDAP_SUCCESS ∨
        noop = true
  · simp [miAfterLoop, h1]
  · by_cases h2 : (ixDelLoop env lo.e.e_id lo.save).rc = LDAP_SUCCESS
    · by_cases h3 :
          (ixAddLoop env lo.e.e_id lo.e.e_attrs).rc = LDAP_SUCCESS <;>
        simp [miAfterLoop, h1, h2, h3]
    · simp [miAfterLoop, h1, h2]

theorem miAfterLoop_schemaCheck_mem (env : SlapEnv) (noop : Bool)
    (lo : LoopOut) : Ev.schemaCheck ∈ (miAfterLoop env noop lo).trace := by
  by_cases h1 :
      env.entry_schema_check lo.e.e_attrs lo.save env.manageDIT ≠ LDAP_SUCCESS ∨
        noop = true
  · simp [miAfterLoop, h1]
  · by_cases h2 : (ixDelLoop env lo.e.e_id lo.save).rc = LDAP_SUCCESS
    · by_cases h3 :
          (ixAddLoop env lo.e.e_id lo.e.e_attrs).rc = LDAP_SUCCESS <;>
        simp [miAfterLoop, h1, h2, h3]
    · simp [miAfterLoop, h1, h2]

theorem mem_trace_decomp (ev : Ev) (evs dl al : List Ev)
    (hdl : ∀ x ∈ dl, ∃ d v i, x = Ev.ixWrite IxKind.deleteOp d v i)
    (hal : ∀ x ∈ al, ∃ d v i, x = Ev.ixWrite IxKind.addOp d v i)
    (h : ev ∈ evs ++ [Ev.schemaCheck] ++ dl ++ al) :
    ev ∈ evs ∨ ev = Ev.schemaCheck ∨
      (∃ d v i, ev = Ev.ixWrite IxKind.deleteOp d v i) ∨
      (∃ d v i, ev = Ev.ixWrite IxKind.addOp d v i) := by
  simp only [List.append_assoc, List.mem_append, List.mem_singleton] at h
  rcases h with h | h | h | h
  · exact Or.inl h
  · exact Or.inr (Or.inl h)
  · exact Or.inr (Or.inr (Or.inl (hdl ev h)))
  · exact Or.inr (Or.inr (Or.inr (hal ev h)))

theorem miAfterLoop_trace (env : SlapEnv) (noop : Bool) (lo : LoopOut) :
    ∀ ev ∈ (miAfterLoop env noop lo).trace,
      ev ∈ lo.evs ∨ ev = Ev.schemaCheck ∨
        (∃ d v i, ev = Ev.ixWrite IxKind.deleteOp d v i) ∨
        (∃ d v i, ev = Ev.ixWrite IxKind.addOp d v i) := by
  intro ev hev
  by_cases h1 :
      env.entry_schema_check lo.e.e_attrs lo.save env.manageDIT ≠ LDAP_SUCCESS ∨
        noop = true
  · refine mem_trace_decomp ev lo.evs [] []
      (by intro x hx; simp at hx) (by intro x hx; simp at hx) ?_
    simpa [miAfterLoop, h1] using hev
  · by_cases h2 : (ixDelLoop env lo.e.e_id lo.save).rc = LDAP_SUCCESS
    · by_cases h3 :
          (ixAddLoop env lo.e.e_id lo.e.e_attrs).rc = LDAP_SUCCESS <;>
      · refine mem_trace_decomp ev lo.evs
          (ixDelLoop env lo.e.e_id lo.save).evs
          (ixAddLoop env lo.e.e_id lo.e.e_attrs).evs
          (ixDelLoop_evs env lo.e.e_id lo.save)
          (ixAddLoop_evs env lo.e.e_id lo.e.e_attrs) ?_
        simp [miAfterLoop, h1, h2, h3, List.mem_append] at hev
        simp only [List.append_assoc, List.mem_append, List.mem_singleton]
        tauto
    · refine mem_trace_decomp ev lo.evs
        (ixDelLoop env lo.e.e_id lo.save).evs []
        (ixDelLoop_evs env lo.e.e_id lo.save)
        (by intro x hx; simp at hx) ?_
      simp [miAfterLoop, h1, h2, List.mem_append] at hev
      simp only [List.append_assoc, List.mem_append, List.mem_singleton]
      tauto

theorem miAfterLoop_noop (env : SlapEnv) (lo : LoopOut) :
    miAfterLoop env true lo =
      { rc := env.entry_schema_check lo.e.e_attrs lo.save env.manageDIT,
        e := { lo.e with e_attrs := clearFlags lo.save },
        modlist := lo.modsOut, trace := lo.evs ++ [Ev.schemaCheck] } := by
  simp [miAfterLoop]

theorem glueTrigger_iff (m : Modification) :
    glueTrigger m = true ↔
      (m.sm_op = ModOp.add ∨ m.sm_op = ModOp.replace) ∧
        m.sm_desc = structuralObjectClassDesc ∧
        m.sm_values.headD "" ≠ "glue" := by
  cases m with
  | mk op d v nv => cases op <;> simp [glueTrigger, value_match]

theorem glueDetect_iff (mods : List Modification) :
    glueDetect mods = true ↔
      ∃ m ∈ mods,
        (m.sm_op = ModOp.add ∨ m.sm_op = ModOp.replace) ∧
          m.sm_desc = structuralObjectClassDesc ∧
          m.sm_values.headD "" ≠ "glue" := by
  induction mods with
  | nil => simp [glueDetect]
  | cons m rest ih =>
      rw [glueDetect]
      by_cases hm : glueTrigger m
      · rw [if_pos hm]
        simp only [true_iff]
        exact ⟨m, List.mem_cons_self m rest, (glueTrigger_iff m).mp hm⟩
      · rw [if_neg hm, ih]
        constructor
        · rintro ⟨x, hx, hp⟩
          exact ⟨x, List.mem_cons_of_mem m hx, hp⟩
        · rintro ⟨x, hx, hp⟩
          rcases List.mem_cons.mp hx with rfl | hx
          · exact absurd ((glueTrigger_iff x).mpr hp) hm
          · exact ⟨x, hx, hp⟩

theorem head?_take (l : List String) : (l.take 1).head? = l.head? := by
  cases l <;> simp

theorem glueTrigger_take (m : Modification) :
    glueTrigger { m with sm_values := m.sm_values.take 1 } = glueTrigger m := by
  cases m with
  | mk op d v nv =>
      cases op <;> simp [glueTrigger, List.headD_eq_head?, head?_take]

theorem miApply_trace_all (env : SlapEnv) (noop : Bool)
    (mods : List Modification) (e : Entry) (save work : List Attribute)
    (glue : Bool) :
    ∀ ev ∈ (miApply env noop mods e save work glue).trace,
      applyEv ev ∨ ev = Ev.schemaCheck ∨
        (∃ d v i, ev = Ev.ixWrite IxKind.deleteOp d v i) ∨
        (∃ d v i, ev = Ev.ixWrite IxKind.addOp d v i) := by
  intro ev hev
  have hloop :
      ∀ x ∈ (applyLoop env noop glue mods { e with e_attrs := work }
        save [] []).evs, applyEv x :=
    applyLoop_evs env noop glue mods _ save [] [] (by simp)
  by_cases herr :
      (applyLoop env noop glue mods { e with e_attrs := work }
        save [] []).err = LDAP_SUCCESS
  · rw [miApply] at hev
    simp only [herr, ne_eq, not_true_eq_false, if_false, ite_false] at hev
    rcases miAfterLoop_trace env noop _ ev hev with h | h | h | h
    · exact Or.inl (hloop ev h)
    · exact Or.inr (Or.inl h)
    · exact Or.inr (Or.inr (Or.inl h))
    · exact Or.inr (Or.inr (Or.inr h))
  · rw [miApply] at hev
    simp only [herr, ne_eq, not_false_iff, if_true, ite_true] at hev
    exact Or.inl (hloop ev hev)

theorem miApply_noop_eq (env : SlapEnv) (mods : List Modification)
    (e : Entry) (save work : List Attribute) (glue : Bool)
    (h : (miApply env true mods e save work glue).rc = LDAP_SUCCESS) :
    miApply env true mods e save work glue =
      miAfterLoop env true
        (applyLoop env true glue mods { e with e_attrs := work } save [] []) := by
  by_cases herr :
      (applyLoop env true glue mods { e with e_attrs := work }
        save [] []).err = LDAP_SUCCESS
  · rw [miApply]
    simp only [herr, ne_eq, not_true_eq_false, if_false, ite_false]
  · rw [miApply] at h
    simp only [herr, ne_eq, not_false_iff, if_true, ite_true] at h

theorem miApply_success_schema (env : SlapEnv) (noop : Bool)
    (mods : List Modification) (e : Entry) (save work : List Attribute)
    (glue : Bool)
    (h : (miApply env noop mods e save work glue).rc = LDAP_SUCCESS) :
    Ev.schemaCheck ∈ (miApply env noop mods e save work glue).trace := by
  by_cases herr :
      (applyLoop env noop glue mods { e with e_attrs := work }
        save [] []).err = LDAP_SUCCESS
  · rw [miApply]
    simp only [herr, ne_eq, not_true_eq_false, if_false, ite_false]
    exact miAfterLoop_schemaCheck_mem env noop _
  · rw [miApply] at h
    simp only [herr, ne_eq, not_false_iff, if_true, ite_true] at h

theorem miApply_modlist (env : SlapEnv) (noop : Bool)
    (mods : List Modification) (e : Entry) (save work : List Attribute)
    (glue : Bool) :
    (miApply env noop mods e save work glue).modlist = mods := by
  by_cases herr :
      (applyLoop env noop glue mods { e with e_attrs := work }
        save [] []).err = LDAP_SUCCESS
  · rw [miApply]
    simp only [herr, ne_eq, not_true_eq_false, if_false, ite_false,
      miAfterLoop_modlist]
    simpa using applyLoop_modsOut env noop glue mods _ save [] []
  · rw [miApply]
    simp only [herr, ne_eq, not_false_iff, if_true, ite_true]
    simpa using applyLoop_modsOut env noop glue mods _ save [] []

theorem miApply_err_clear (env : SlapEnv) (noop : Bool)
    (mods : List Modification) (e : Entry) (save work : List Attribute)
    (glue : Bool)
    (h : (miApply env noop mods e save work glue).rc ≠ LDAP_SUCCESS) :
    clearFlags (miApply env noop mods e save work glue).e.e_attrs =
      clearFlags save := by
  by_cases herr :
      (applyLoop env noop glue mods { e with e_attrs := work }
        save [] []).err = LDAP_SUCCESS
  · rw [miApply] at h ⊢
    simp only [herr, ne_eq, not_true_eq_false, if_false, ite_false] at h ⊢
    calc clearFlags (miAfterLoop env noop _).e.e_attrs
        = clearFlags (applyLoop env noop glue mods
            { e with e_attrs := work } save [] []).save :=
          miAfterLoop_err_attrs env noop _ h
      _ = clearFlags save := applyLoop_save_clear env noop glue mods _ save [] []
  · rw [miApply]
    simp only [herr, ne_eq, not_false_iff, if_true, ite_true]
    calc clearFlags (applyLoop env noop glue mods
          { e with e_attrs := work } save [] []).e.e_attrs
        = clearFlags (applyLoop env noop glue mods
            { e with e_attrs := work } save [] []).save := by
          rw [applyLoop_err_attrs env noop glue mods _ save [] [] herr]
      _ = clearFlags save := applyLoop_save_clear env noop glue mods _ save [] []

/-- Unfolding of bdb_modify_internal when access is granted. -/
theorem mi_eq (env : SlapEnv) (noop : Bool) (mods : List Modification)
    (e : Entry) (hacl : env.acl_check_modlist e mods = true) :
    bdb_modify_internal env noop mods e =
      miApply env noop mods e e.e_attrs
        (if glueDetect mods then
          (attrs_dup e.e_attrs).filter (fun a => env.is_at_operational a.a_desc)
        else attrs_dup e.e_attrs)
        (glueDetect mods) := by
  rw [bdb_modify_internal, if_pos hacl]

theorem mi_modlist (env : SlapEnv) (noop : Bool)
    (mods : List Modification) (e : Entry) :
    (bdb_modify_internal env noop mods e).modlist = mods := by
  by_cases hacl : env.acl_check_modlist e mods
  · rw [mi_eq env noop mods e hacl]
    exact miApply_modlist env noop mods e _ _ _
  · rw [bdb_modify_internal, if_neg hacl]

theorem miApply_noop_trace (env : SlapEnv) (mods : List Modification)
    (e : Entry) (save work : List Attribute) (glue : Bool) :
    ∀ ev ∈ (miApply env true mods e save work glue).trace,
      applyEv ev ∨ ev = Ev.schemaCheck := by
  intro ev hev
  have hloop :
      ∀ x ∈ (applyLoop env true glue mods { e with e_attrs := work }
        save [] []).evs, applyEv x :=
    applyLoop_evs env true glue mods _ save [] [] (by simp)
  by_cases herr :
      (applyLoop env true glue mods { e with e_attrs := work }
        save [] []).err = LDAP_SUCCESS
  · rw [miApply] at hev
    simp only [herr, ne_eq, not_true_eq_false, if_false, ite_false,
      miAfterLoop_noop] at hev
    rcases List.mem_append.mp hev with h | h
    · exact Or.inl (hloop ev h)
    · exact Or.inr (by simpa using h)
  · rw [miApply] at hev
    simp only [herr, ne_eq, not_false_iff, if_true, ite_true] at hev
    exact Or.inl (hloop ev hev)

theorem miAfterLoop_ix_order (env : SlapEnv) (noop : Bool) (lo : LoopOut)
    (hevs : ∀ ev ∈ lo.evs, applyEv ev) :
    (miAfterLoop env noop lo).trace.filter isIxEv =
      (miAfterLoop env noop lo).trace.filter isIxDelEv ++
        (miAfterLoop env noop lo).trace.filter isIxAddEv := by
  obtain ⟨ha1, ha2, ha3⟩ := filters_of_applyEv lo.evs hevs
  by_cases h1 :
      env.entry_schema_check lo.e.e_attrs lo.save env.manageDIT ≠ LDAP_SUCCESS ∨
        noop = true
  · simp [miAfterLoop, h1, List.filter_append, ha1, ha2, ha3, isIxEv,
      isIxDelEv, isIxAddEv]
  · obtain ⟨hd1, hd2, hd3⟩ :=
      filters_of_del _ (ixDelLoop_evs env lo.e.e_id lo.save)
    by_cases h2 : (ixDelLoop env lo.e.e_id lo.save).rc = LDAP_SUCCESS
    · obtain ⟨hb1, hb2, hb3⟩ :=
        filters_of_add _ (ixAddLoop_evs env lo.e.e_id lo.e.e_attrs)
      by_cases h3 :
          (ixAddLoop env lo.e.e_id lo.e.e_attrs).rc = LDAP_SUCCESS <;>
        simp [miAfterLoop, h1, h2, h3, List.filter_append, ha1, ha2, ha3,
          hd1, hd2, hd3, hb1, hb2, hb3, isIxEv, isIxDelEv, isIxAddEv]
    · simp [miAfterLoop, h1, h2, List.filter_append, ha1, ha2, ha3,
        hd1, hd2, hd3, isIxEv, isIxDelEv, isIxAddEv]

theorem miApply_ix_order (env : SlapEnv) (noop : Bool)
    (mods : List Modification) (e : Entry) (save work : List Attribute)
    (glue : Bool) :
    (miApply env noop mods e save work glue).trace.filter isIxEv =
      (miApply env noop mods e save work glue).trace.filter isIxDelEv ++
        (miApply env noop mods e save work glue).trace.filter isIxAddEv := by
  have hevs :
      ∀ x ∈ (applyLoop env noop glue mods { e with e_attrs := work }
        save [] []).evs, applyEv x :=
    applyLoop_evs env noop glue mods _ save [] [] (by simp)
  by_cases herr :
      (applyLoop env noop glue mods { e with e_attrs := work }
        save [] []).err = LDAP_SUCCESS
  · rw [miApply]
    simp only [herr, ne_eq, not_true_eq_false, if_false, ite_false]
    exact miAfterLoop_ix_order env noop _ hevs
  · rw [miApply]
    simp only [herr, ne_eq, not_false_iff, if_true, ite_true]
    obtain ⟨h1, h2, h3⟩ := filters_of_applyEv _ hevs
    simp [h1, h2, h3]

theorem mi_success_schema_mem (env : SlapEnv) (noop : Bool)
    (mods : List Modification) (e : Entry)
    (h : (bdb_modify_internal env noop mods e).rc = LDAP_SUCCESS) :
    Ev.schemaCheck ∈ (bdb_modify_internal env noop mods e).trace := by
  by_cases hacl : env.acl_check_modlist e mods
  · rw [mi_eq env noop mods e hacl] at h ⊢
    exact miApply_success_schema env noop mods e _ _ _ h
  · rw [bdb_modify_internal, if_neg hacl] at h
    simp [LDAP_INSUFFICIENT_ACCESS, LDAP_SUCCESS] at h

theorem mi_noop_success_attrs (env : SlapEnv) (mods : List Modification)
    (e : Entry)
    (h : (bdb_modify_internal env true mods e).rc = LDAP_SUCCESS) :
    (bdb_modify_internal env true mods e).e.e_attrs = clearFlags e.e_attrs := by
  by_cases hacl : env.acl_check_modlist e mods
  · rw [mi_eq env true mods e hacl] at h ⊢
    rw [miApply_noop_eq env mods e _ _ _ h, miAfterLoop_noop]
    simp [applyLoop_save_noop]
  · rw [bdb_modify_internal, if_neg hacl] at h
    simp [LDAP_INSUFFICIENT_ACCESS, LDAP_SUCCESS] at h

theorem mi_noop_no_ixwrite (env : SlapEnv) (mods : List Modification)
    (e : Entry) (k : IxKind) (d : String) (v : List String) (i : Nat) :
    Ev.ixWrite k d v i ∉ (bdb_modify_internal env true mods e).trace := by
  intro hmem
  by_cases hacl : env.acl_check_modlist e mods
  · rw [mi_eq env true mods e hacl] at hmem
    rcases miApply_noop_trace env mods e _ _ _ _ hmem with h | h
    · exact h
    · exact absurd h (by simp)
  · rw [bdb_modify_internal, if_neg hacl] at hmem
    simp at hmem

/-! Claim theorems. -/

/-- C1: pass 1 marks the entry for glue-attribute purge exactly when the
modification list contains an ADD or REPLACE of the structuralObjectClass
attribute whose value is not equal to "glue"; and when so marked, every
non-operational attribute is removed from the working copy (the duplicate
of the pre-image list) before any modification is applied. -/
theorem claim1_glue_detection_and_purge :
    (∀ mods : List Modification,
      glueDetect mods = true ↔
        ∃ m ∈ mods,
          (m.sm_op = ModOp.add ∨ m.sm_op = ModOp.replace) ∧
            m.sm_desc = structuralObjectClassDesc ∧
            m.sm_values.headD "" ≠ "glue") ∧
    (∀ (env : SlapEnv) (noop : Bool) (mods : List Modification) (e : Entry),
      env.acl_check_modlist e mods = true → glueDetect mods = true →
      bdb_modify_internal env noop mods e =
        miApply env noop mods e e.e_attrs
          ((attrs_dup e.e_attrs).filter
            (fun a => env.is_at_operational a.a_desc))
          true) := by
  constructor
  · exact glueDetect_iff
  · intro env noop mods e hacl hglue
    rw [mi_eq env noop mods e hacl, hglue]
    simp

/-- Witness for C1 at a concrete REPLACE of structuralObjectClass. -/
theorem claim1_witness :
    (glueDetect [modGlueRepl] = true ↔
      ∃ m ∈ [modGlueRepl],
        (m.sm_op = ModOp.add ∨ m.sm_op = ModOp.replace) ∧
          m.sm_desc = structuralObjectClassDesc ∧
          m.sm_values.headD "" ≠ "glue") ∧
    bdb_modify_internal slapEnv0 false [modGlueRepl] entryA =
      miApply slapEnv0 false [modGlueRepl] entryA entryA.e_attrs
        ((attrs_dup entryA.e_attrs).filter
          (fun a => slapEnv0.is_at_operational a.a_desc)) true :=
  ⟨claim1_glue_detection_and_purge.1 [modGlueRepl],
   claim1_glue_detection_and_purge.2 slapEnv0 false [modGlueRepl] entryA
     (by decide) (by decide)⟩

/-- C2: whenever bdb_modify_internal returns an error, the entry's
attribute list is the restored pre-image list: apart from the index
bookkeeping flag word (whose fate is the subject of C3), the attribute
list equals the one the entry had on entry, on every error path. -/
theorem claim2_error_restores_preimage (env : SlapEnv) (noop : Bool)
    (mods : List Modification) (e : Entry)
    (h : (bdb_modify_internal env noop mods e).rc ≠ LDAP_SUCCESS) :
    clearFlags (bdb_modify_internal env noop mods e).e.e_attrs =
      clearFlags e.e_attrs := by
  by_cases hacl : env.acl_check_modlist e mods
  · rw [mi_eq env noop mods e hacl] at h ⊢
    exact miApply_err_clear env noop mods e _ _ _ h
  · rw [bdb_modify_internal, if_neg hacl]

/-- Witness for C2 on the access-denied error path. -/
theorem claim2_witness :
    (bdb_modify_internal slapEnvAclFalse false [] entryA).rc ≠ LDAP_SUCCESS ∧
    clearFlags (bdb_modify_internal slapEnvAclFalse false [] entryA).e.e_attrs =
      clearFlags entryA.e_attrs :=
  ⟨by decide,
   claim2_error_restores_preimage slapEnvAclFalse false [] entryA (by decide)⟩

/-- C3 evaluation: after a successful first modification of the indexed
attribute "a" (which sets SLAP_ATTR_IXDEL on the saved pre-image
attribute), a failing second modification makes bdb_modify_internal
return LDAP_OTHER with the pre-image restored but the index-tracking
flag still set: the per-modification error path does not clear the
flags. -/
theorem claim3_flags_survive_mod_error :
    (bdb_modify_internal slapEnvIx false [modAddA, modBadOp] entryA).rc =
      LDAP_OTHER ∧
    (bdb_modify_internal slapEnvIx false [modAddA, modBadOp] entryA).e.e_attrs =
      [{ a_desc := "a", a_vals := ["v"], a_nvals := ["v"],
         a_flags := SLAP_ATTR_IXDEL }] ∧
    ∃ a ∈ (bdb_modify_internal slapEnvIx false
        [modAddA, modBadOp] entryA).e.e_attrs, a.a_flags ≠ 0 := by
  refine ⟨by decide, by decide, ?_⟩
  decide

/-- C5: in the trace of a successful bdb_modify_internal run, the index
store writes are all the DELETE_OP writes followed by all the ADD_OP
writes: filtering the trace to index writes gives the delete writes
concatenated with the add writes. -/
theorem claim5_deletes_precede_adds (env : SlapEnv) (noop : Bool)
    (mods : List Modification) (e : Entry)
    (h : (bdb_modify_internal env noop mods e).rc = LDAP_SUCCESS) :
    (bdb_modify_internal env noop mods e).trace.filter isIxEv =
      (bdb_modify_internal env noop mods e).trace.filter isIxDelEv ++
        (bdb_modify_internal env noop mods e).trace.filter isIxAddEv := by
  by_cases hacl : env.acl_check_modlist e mods
  · rw [mi_eq env noop mods e hacl]
    exact miApply_ix_order env noop mods e _ _ _
  · rw [bdb_modify_internal, if_neg hacl]
    simp

/-- Witness for C5 on a run that issues one index delete and one index
add. -/
theorem claim5_witness :
    (bdb_modify_internal slapEnvIx false [modAddA] entryA).rc =
      LDAP_SUCCESS ∧
    (bdb_modify_internal slapEnvIx false [modAddA] entryA).trace.filter isIxEv =
      (bdb_modify_internal slapEnvIx false [modAddA] entryA).trace.filter
          isIxDelEv ++
        (bdb_modify_internal slapEnvIx false [modAddA] entryA).trace.filter
          isIxAddEv ∧
    (bdb_modify_internal slapEnvIx false [modAddA] entryA).trace.filter
        isIxDelEv ≠ [] :=
  ⟨by decide,
   claim5_deletes_precede_adds slapEnvIx false [modAddA] entryA (by decide),
   by decide⟩

/-- C9: in the glue-detection pass only the first value of an ADD or
REPLACE of structuralObjectClass matters (truncating every modification's
value list to its first value never changes the outcome), and the scan
stops at the first modification that sets the purge flag (whatever
follows a triggering modification cannot change the outcome). -/
theorem claim9_first_value_and_early_stop :
    (∀ mods : List Modification,
      glueDetect
          (mods.map (fun m => { m with sm_values := m.sm_values.take 1 })) =
        glueDetect mods) ∧
    (∀ (l1 : List Modification) (m : Modification) (l2 : List Modification),
      glueTrigger m = true → glueDetect (l1 ++ m :: l2) = true) := by
  constructor
  · intro mods
    induction mods with
    | nil => rfl
    | cons m rest ih =>
        simp only [List.map_cons, glueDetect, glueTrigger_take, ih]
  · intro l1 m l2 hm
    induction l1 with
    | nil => simp [glueDetect, hm]
    | cons a l1 ih =>
        by_cases ha : glueTrigger a <;> simp [glueDetect, ha, ih]

/-- Witness for C9: a triggering modification placed in the middle of a
list, and truncation invariance at a concrete modification. -/
theorem claim9_witness :
    glueDetect ([modAddA] ++ modGlueRepl :: [modBadOp]) = true ∧
    glueDetect
        ([modGlueRepl].map (fun m => { m with sm_values := m.sm_values.take 1 })) =
      glueDetect [modGlueRepl] :=
  ⟨claim9_first_value_and_early_stop.2 [modAddA] modGlueRepl [modBadOp]
     (by decide),
   claim9_first_value_and_early_stop.1 [modGlueRepl]⟩

/-- C10: bdb_modify_internal hands the modification list back with every
operation code equal to its value on entry (the SOFT_ADD rewrite is
restored on success and on failure, and no other case changes an op), and
every call into modify_add_values shows the collaborator a modification
whose operation code is ADD. -/
theorem claim10_mod_ops_preserved (env : SlapEnv) (noop : Bool)
    (mods : List Modification) (e : Entry) :
    (bdb_modify_internal env noop mods e).modlist = mods ∧
    (∀ m : Modification,
      Ev.callAdd m ∈ (bdb_modify_internal env noop mods e).trace →
        m.sm_op = ModOp.add) := by
  refine ⟨mi_modlist env noop mods e, ?_⟩
  intro m hm
  by_cases hacl : env.acl_check_modlist e mods
  · rw [mi_eq env noop mods e hacl] at hm
    rcases miApply_trace_all env noop mods e _ _ _ (Ev.callAdd m) hm with
      h | h | h | h
    · exact h
    · exact absurd h (by simp)
    · obtain ⟨d, v, i, h⟩ := h
      exact absurd h (by simp)
    · obtain ⟨d, v, i, h⟩ := h
      exact absurd h (by simp)
  · rw [bdb_modify_internal, if_neg hacl] at hm
    simp at hm

/-- Witness for C10 on a SOFT_ADD modification. -/
theorem claim10_witness :
    (bdb_modify_internal slapEnv0 false [modSoftA] entryA).modlist =
      [modSoftA] ∧
    ({ modSoftA with sm_op := ModOp.add } : Modification).sm_op =
      ModOp.add :=
  ⟨(claim10_mod_ops_preserved slapEnv0 false [modSoftA] entryA).1,
   (claim10_mod_ops_preserved slapEnv0 false [modSoftA] entryA).2
     { modSoftA with sm_op := ModOp.add } (by decide)⟩

/-- C4 evaluation: two adjacent maintained-attribute modifications defeat
the strip loop of add_lastmods: after unlinking the modifytimestamp
modification the loop skips the modifiersname modification that slid into
its place, so the user-supplied modifiersname REPLACE survives in the
rewritten list (behind the two injected modifications, where it is
applied last and overrides them). -/
theorem claim4_adjacent_lastmod_survives :
    (add_lastmods { o_dn := some "cn=admin" }
        { tm_year := 2020, tm_mon := 1, tm_mday := 2, tm_hour := 3,
          tm_min := 4, tm_sec := 5 }
        [userTsMod, userMnMod]).mods =
      [ { mod_op := LDAP_MOD_REPLACE_CODE, mod_type := "modifytimestamp",
          mod_bvalues := ["20200102030405Z"] },
        { mod_op := LDAP_MOD_REPLACE_CODE, mod_type := "modifiersname",
          mod_bvalues := ["cn=admin"] },
        userMnMod ] := by
  decide

/-- C7: add_lastmods pushes onto the front of the (stripped) list a
REPLACE of modifytimestamp whose single value is the currenttime global
rendered as YYYYMMDDhhmmssZ and a REPLACE of modifiersname whose single
value is the authenticated DN, or "NULLDN" when the bind is anonymous
(null or empty o_dn); the currenttime global is read between the lock and
the unlock of its dedicated mutex. -/
theorem claim7_injector_prepends (op : FrontOp) (t : Tm)
    (mods : List LDAPMod) :
    (add_lastmods op t mods).mods =
      { mod_op := LDAP_MOD_REPLACE_CODE, mod_type := "modifytimestamp",
        mod_bvalues := [natPad 4 t.tm_year ++ natPad 2 t.tm_mon ++
          natPad 2 t.tm_mday ++ natPad 2 t.tm_hour ++ natPad 2 t.tm_min ++
          natPad 2 t.tm_sec ++ "Z"] } ::
      { mod_op := LDAP_MOD_REPLACE_CODE, mod_type := "modifiersname",
        mod_bvalues :=
          [match op.o_dn with
           | none => "NULLDN"
           | some d => if d = "" then "NULLDN" else d] } ::
      strip_lastmods mods ∧
    (add_lastmods op t mods).evs =
      [TEv.mutexLock, TEv.readCurrenttime, TEv.mutexUnlock] :=
  ⟨rfl, rfl⟩

/-- C6: a no-op modify that passes all checks changes no persistent
state: the reply carries the distinguished no-operation code, the outer
transaction is aborted and never committed, the cache is not updated, no
index store write happens, the validator still runs (the schema-check
event is in the trace), and the applier hands the entry back with its
pre-image attribute list (flags cleared). -/
theorem claim6_noop_no_persistent_change
    (env : BdbEnv) (op : OpParams) (e : Entry) (fuel : Nat)
    (hnoop : op.o_noop = true)
    (hbeg : env.txn_begin_res = 0)
    (hdn : env.dn2entry = DnRes.found e)
    (hglue : is_entry_glue e = false)
    (href : is_entry_referral e = false)
    (hass : op.get_assert = false)
    (hpre : op.o_preread = false)
    (hpost : op.o_postread = false)
    (hbeg2 : env.txn_begin2_res = 0)
    (hmi : (bdb_modify_internal env.slap true op.modlist e).rc = LDAP_SUCCESS)
    (hupd : env.id2entry_update_res = 0)
    (hcom2 : env.txn_commit2_res = 0)
    (habort : env.txn_abort_res = 0)
    (hcp : env.txn_cp = false) :
    (bdb_modify env op fuel).sr_err = LDAP_X_NO_OPERATION ∧
    CEv.outerCommit ∉ (bdb_modify env op fuel).trace ∧
    CEv.outerAbort ∈ (bdb_modify env op fuel).trace ∧
    (∀ al, CEv.cacheModify al ∉ (bdb_modify env op fuel).trace) ∧
    (∀ k d v i, CEv.mi (Ev.ixWrite k d v i) ∉ (bdb_modify env op fuel).trace) ∧
    CEv.mi Ev.schemaCheck ∈ (bdb_modify env op fuel).trace ∧
    (bdb_modify_internal env.slap true op.modlist e).e.e_attrs =
      clearFlags e.e_attrs := by
  have hrun : bdb_modify env op fuel =
      { sr_err := LDAP_X_NO_OPERATION, sr_text := none,
        trace := [CEv.outerBegin, CEv.innerBegin, CEv.applyOn e] ++
          (bdb_modify_internal env.slap true op.modlist e).trace.map CEv.mi ++
          [CEv.storeUpdate (bdb_modify_internal env.slap true op.modlist e).e,
           CEv.innerCommit, CEv.outerAbort,
           CEv.sendResult LDAP_X_NO_OPERATION, CEv.cacheReturnW] } := by
    simp [bdb_modify, bdb_modify_rec, bdb_modify_attempt, bdb_modify_checks,
      bdb_modify_apply_phase, finishResults, hnoop, hbeg, hdn, hglue, href,
      hass, hpre, hpost, hbeg2, hmi, hupd, hcom2, habort, hcp,
      LDAP_SUCCESS, LDAP_X_NO_OPERATION, LDAP_INSUFFICIENT_ACCESS,
      DB_LOCK_DEADLOCK, DB_LOCK_NOTGRANTED]
  refine ⟨by rw [hrun], ?_, ?_, ?_, ?_, ?_,
    mi_noop_success_attrs env.slap op.modlist e hmi⟩
  · rw [hrun]
    simp
  · rw [hrun]
    simp
  · intro al
    rw [hrun]
    simp
  · intro k d v i hmem
    rw [hrun] at hmem
    simp at hmem
    exact mi_noop_no_ixwrite env.slap op.modlist e k d v i hmem
  · rw [hrun]
    have hsc :
        CEv.mi Ev.schemaCheck ∈
          (bdb_modify_internal env.slap true op.modlist e).trace.map CEv.mi :=
      List.mem_map_of_mem CEv.mi
        (mi_success_schema_mem env.slap true op.modlist e hmi)
    simp [hsc]

/-- Witness for C6: a concrete benign no-op run. -/
theorem claim6_witness :
    (bdb_modify bdbEnv0 opNoop 3).sr_err = LDAP_X_NO_OPERATION ∧
    CEv.outerCommit ∉ (bdb_modify bdbEnv0 opNoop 3).trace ∧
    CEv.outerAbort ∈ (bdb_modify bdbEnv0 opNoop 3).trace ∧
    (∀ al, CEv.cacheModify al ∉ (bdb_modify bdbEnv0 opNoop 3).trace) ∧
    (∀ k d v i, CEv.mi (Ev.ixWrite k d v i) ∉ (bdb_modify bdbEnv0 opNoop 3).trace) ∧
    CEv.mi Ev.schemaCheck ∈ (bdb_modify bdbEnv0 opNoop 3).trace ∧
    (bdb_modify_internal bdbEnv0.slap true opNoop.modlist entryTop).e.e_attrs =
      clearFlags entryTop.e_attrs :=
  claim6_noop_no_persistent_change bdbEnv0 opNoop entryTop 3
    (by decide) (by decide) (by decide) (by decide) (by decide) (by decide)
    (by decide) (by decide) (by decide) (by decide) (by decide) (by decide)
    (by decide) (by decide)

/-- C8 counterexample: with DN resolution reporting not-found on the
empty DN but without the manageDSAit control, the synthesized glue entry
trips the glue-entry check and the coordinator answers with a referral:
the synthesized entry is never used as the pre-image of a modify, against
the unconditional wording of the claim. -/
theorem claim8_counterexample :
    (bdb_modify bdbEnvNF opFakeroot 5).sr_err = LDAP_REFERRAL ∧
    ∀ e', CEv.applyOn e' ∉ (bdb_modify bdbEnvNF opFakeroot 5).trace := by
  constructor
  · decide
  · intro e' h
    have ht : (bdb_modify bdbEnvNF opFakeroot 5).trace =
        [CEv.outerBegin, CEv.cacheReturnR, CEv.sendResult LDAP_REFERRAL,
         CEv.outerAbort] := by decide
    rw [ht] at h
    simp at h

/-- C8 as amended: when DN resolution reports not-found, the target DN is
the empty DN and the manageDSAit control is set, the coordinator
synthesizes the transient glue entry (empty name, objectClass and
structuralObjectClass both "glue"), hands it to the applier as the
pre-image, and on success frees it instead of updating the cache. -/
theorem claim8_fakeroot_with_manageDSAit
    (env : BdbEnv) (op : OpParams) (anc : Option Entry) (fuel : Nat)
    (hdn : env.dn2entry = DnRes.notfound anc)
    (hndn : op.req_ndn = "")
    (hmds : op.manageDSAit = true)
    (hnoop : op.o_noop = false)
    (hass : op.get_assert = false)
    (hpre : op.o_preread = false)
    (hpost : op.o_postread = false)
    (hbeg : env.txn_begin_res = 0)
    (hbeg2 : env.txn_begin2_res = 0)
    (hmi : (bdb_modify_internal env.slap false op.modlist fakerootEntry).rc =
      LDAP_SUCCESS)
    (hupd : env.id2entry_update_res = 0)
    (hcom2 : env.txn_commit2_res = 0)
    (hcommit : env.txn_commit_res = 0)
    (hcp : env.txn_cp = false) :
    (bdb_modify env op fuel).sr_err = LDAP_SUCCESS ∧
    CEv.applyOn fakerootEntry ∈ (bdb_modify env op fuel).trace ∧
    fakerootEntry.e_name = "" ∧
    fakerootEntry.e_attrs =
      [ { a_desc := objectClassDesc, a_vals := ["glue"], a_nvals := ["glue"],
          a_flags := 0 },
        { a_desc := structuralObjectClassDesc, a_vals := ["glue"],
          a_nvals := ["glue"], a_flags := 0 } ] ∧
    CEv.entryFree fakerootEntry ∈ (bdb_modify env op fuel).trace ∧
    (∀ al, CEv.cacheModify al ∉ (bdb_modify env op fuel).trace) := by
  have hrun : bdb_modify env op fuel =
      { sr_err := LDAP_SUCCESS, sr_text := none,
        trace := [CEv.outerBegin, CEv.innerBegin, CEv.applyOn fakerootEntry] ++
          (bdb_modify_internal env.slap false op.modlist
            fakerootEntry).trace.map CEv.mi ++
          [CEv.storeUpdate (bdb_modify_internal env.slap false op.modlist
              fakerootEntry).e,
           CEv.innerCommit, CEv.entryFree fakerootEntry, CEv.outerCommit,
           CEv.sendResult LDAP_SUCCESS, CEv.cacheReturnW] } := by
    simp [bdb_modify, bdb_modify_rec, bdb_modify_attempt, bdb_modify_checks,
      bdb_modify_apply_phase, bdb_modify_commit_phase, finishResults,
      hdn, hndn, hmds, hnoop, hass, hpre, hpost, hbeg, hbeg2, hmi, hupd,
      hcom2, hcommit, hcp, LDAP_SUCCESS, LDAP_INSUFFICIENT_ACCESS,
      DB_LOCK_DEADLOCK, DB_LOCK_NOTGRANTED]
  refine ⟨by rw [hrun], ?_, rfl, rfl, ?_, ?_⟩
  · rw [hrun]
    simp
  · rw [hrun]
    simp
  · intro al
    rw [hrun]
    simp

/-- Witness for the amended C8 at a concrete benign environment. -/
theorem claim8_witness :
    (bdb_modify bdbEnvNF opFakerootManage 5).sr_err = LDAP_SUCCESS ∧
    CEv.applyOn fakerootEntry ∈ (bdb_modify bdbEnvNF opFakerootManage 5).trace ∧
    fakerootEntry.e_name = "" ∧
    fakerootEntry.e_attrs =
      [ { a_desc := objectClassDesc, a_vals := ["glue"], a_nvals := ["glue"],
          a_flags := 0 },
        { a_desc := structuralObjectClassDesc, a_vals := ["glue"],
          a_nvals := ["glue"], a_flags := 0 } ] ∧
    CEv.entryFree fakerootEntry ∈ (bdb_modify bdbEnvNF opFakerootManage 5).trace ∧
    (∀ al, CEv.cacheModify al ∉ (bdb_modify bdbEnvNF opFakerootManage 5).trace) :=
  claim8_fakeroot_with_manageDSAit bdbEnvNF opFakerootManage none 5
    (by decide) (by decide) (by decide) (by decide) (by decide) (by decide)
    (by decide) (by decide) (by decide) (by decide) (by decide) (by decide)
    (by decide) (by decide)

end OpenLDAPModify
